import Mathlib

/-!
Shallow embedding of `paddle/fluid/inference/api/paddle_inference_api.h`
(PaddlePaddle inference C API contract layer).

Pointers are modelled as `Option Nat` (`none` is `nullptr`, `some a` is the
address `a`).  The allocator is modelled by a `Heap`: the list of live
allocated addresses together with a fresh-address counter, so that
`new char[length]` yields a fresh non-null address and `delete[]` removes an
address from the heap.  `PaddleBuf` mirrors the class members
`data_ : void*`, `length_ : size_t`, `memory_owned_ : bool` with the member
initializers of the header (`nullptr`, `0`, `true`).

The header declares several member functions whose bodies are not part of the
excerpt (`PaddleBuf::Free`, `PaddleBuf::Reset`, the move operations,
`PaddleDtypeSize`, and the pure-virtual `PaddlePredictor::Run`); those are
modelled from the specification text and are marked as such in their doc
comments.  Everything else is translated directly from the header.
-/

/-- Element type tags, from `enum PaddleDType { FLOAT32, INT64, }`
(paddle_inference_api.h:31-34). -/
inductive PaddleDType where
  | FLOAT32
  | INT64
deriving DecidableEq

/-- Modelled from the spec: `int PaddleDtypeSize(PaddleDType dtype)` is only
declared in the excerpt (paddle_inference_api.h:181); its body is missing.
The spec states it "returns 4 for the float tag and 8 for the integer tag
(byte sizes for 32-bit float and 64-bit integer respectively)". -/
def PaddleDtypeSize : PaddleDType → Int
  | PaddleDType.FLOAT32 => 4
  | PaddleDType.INT64 => 8

/-- A model of the allocator: `alloc` is the list of live allocated
addresses and every address ever handed out is below `next`. -/
structure Heap where
  alloc : List Nat
  next : Nat
deriving DecidableEq

/-- The empty heap: nothing allocated yet. -/
def Heap.emptyHeap : Heap := ⟨[], 0⟩

/-- Model of `new char[length]`: returns a fresh (hence non-null) address and
records it as allocated.  C++ `new[]` never returns a null pointer. -/
def Heap.newArray (h : Heap) : Nat × Heap :=
  (h.next, ⟨h.next :: h.alloc, h.next + 1⟩)

/-- Model of `delete[]` at address `a`: the address is removed from the live
allocations. -/
def Heap.free (h : Heap) (a : Nat) : Heap :=
  ⟨h.alloc.erase a, h.next⟩

/-- Heap well-formedness: live addresses are distinct and below the
fresh-address counter. -/
def Heap.wf (h : Heap) : Prop :=
  h.alloc.Nodup ∧ ∀ a ∈ h.alloc, a < h.next

instance (h : Heap) : Decidable h.wf := by
  unfold Heap.wf
  infer_instance

/-- The members of `class PaddleBuf` with the header's member initializers
`void* data_{nullptr}; size_t length_{0}; bool memory_owned_{true};`
(paddle_inference_api.h:62-64).  The structure defaults are exactly those
initializers, so `{}` is the default-constructed buffer
(`PaddleBuf() = default`, line 38). -/
structure PaddleBuf where
  data_ : Option Nat := none
  length_ : Nat := 0
  memory_owned_ : Bool := true
deriving DecidableEq

/-- Default construction `PaddleBuf()` (paddle_inference_api.h:38): the
member initializers apply. -/
def PaddleBuf.defaultCtor : PaddleBuf := {}

/-- Constructor `PaddleBuf(void* data, size_t length)`
(paddle_inference_api.h:45-46): `data_(data), length_(length),
memory_owned_{false}` — the buffer does not own the memory. -/
def PaddleBuf.ofExternal (data : Option Nat) (length : Nat) : PaddleBuf :=
  { data_ := data, length_ := length, memory_owned_ := false }

/-- Constructor `PaddleBuf(size_t length)` (paddle_inference_api.h:48-49):
`data_(new char[length]), length_(length), memory_owned_(true)`. -/
def PaddleBuf.ofLength (h : Heap) (length : Nat) : PaddleBuf × Heap :=
  let p := h.newArray
  ({ data_ := some p.1, length_ := length, memory_owned_ := true }, p.2)

/-- Accessor `bool empty() const { return length_ == 0; }`
(paddle_inference_api.h:54). -/
def PaddleBuf.empty (b : PaddleBuf) : Bool := b.length_ == 0

/-- Accessor `void* data() const { return data_; }`
(paddle_inference_api.h:55). -/
def PaddleBuf.data (b : PaddleBuf) : Option Nat := b.data_

/-- Accessor `size_t length() const { return length_; }`
(paddle_inference_api.h:56). -/
def PaddleBuf.length (b : PaddleBuf) : Nat := b.length_

/-- Modelled from the spec: `void PaddleBuf::Free()` is only declared in the
excerpt (paddle_inference_api.h:61); its body is missing.  The spec states
"freeing memory is only performed when ownership is exclusive" and
"Destruction releases memory only if exclusively owned": when the buffer owns
a non-null pointer the block is deleted and the buffer emptied; otherwise
nothing happens (deleting a null pointer is a no-op). -/
def PaddleBuf.Free (b : PaddleBuf) (h : Heap) : PaddleBuf × Heap :=
  if b.memory_owned_ then
    match b.data_ with
    | some a => ({ data_ := none, length_ := 0, memory_owned_ := false }, h.free a)
    | none => (b, h)
  else (b, h)

/-- Destructor `~PaddleBuf() { Free(); }` (paddle_inference_api.h:58); the
resulting heap after the buffer is destroyed. -/
def PaddleBuf.destruct (b : PaddleBuf) (h : Heap) : Heap :=
  (b.Free h).2

/-- Modelled from the spec: `void PaddleBuf::Reset(void* data, size_t length)`
is only declared in the excerpt (paddle_inference_api.h:53); its body is
missing.  The spec states "Resetting a buffer to new external memory releases
any previously owned memory and does not take ownership of the new memory". -/
def PaddleBuf.Reset (b : PaddleBuf) (data : Option Nat) (length : Nat) (h : Heap) :
    PaddleBuf × Heap :=
  let fh := b.Free h
  ({ data_ := data, length_ := length, memory_owned_ := false }, fh.2)

/-- Modelled from the spec: `PaddleBuf(PaddleBuf&& other)` is only declared in
the excerpt (paddle_inference_api.h:39); its body is missing.  The spec
states "Move-constructing ... a buffer leaves the source in an empty,
non-owning state and the destination holding the original data pointer and
length" and "Move construction/assignment transfers ownership and nulls out
the source".  Returns (destination, source after the move). -/
def PaddleBuf.moveConstruct (other : PaddleBuf) : PaddleBuf × PaddleBuf :=
  ({ data_ := other.data_, length_ := other.length_, memory_owned_ := other.memory_owned_ },
   { data_ := none, length_ := 0, memory_owned_ := false })

/-- Modelled from the spec: `PaddleBuf& operator=(PaddleBuf&&)` is only
declared in the excerpt (paddle_inference_api.h:43); its body is missing.
The spec states the same ownership-transferring contract as for move
construction.  Returns (destination after the move, source after the move). -/
def PaddleBuf.moveAssign (dest other : PaddleBuf) : PaddleBuf × PaddleBuf :=
  let moved := PaddleBuf.moveConstruct other
  (moved.1, moved.2)

/-- Tensor descriptor `struct PaddleTensor` (paddle_inference_api.h:67-74):
`name`, `shape`, `data` blob, `dtype`, and the LoD offset lists. -/
structure PaddleTensor where
  name : String
  shape : List Int
  data : PaddleBuf
  dtype : PaddleDType
  lod : List (List Nat)

/-- Engine kinds, from `enum class PaddleEngineKind { kNative = 0, kAnakin,
kAutoMixedTensorRT, kAnalysis }` (paddle_inference_api.h:76-84).  The two
commented-out kinds (`kTensorRT`, `kAutoMixedAnakin`) are future work and not
part of the enumeration. -/
inductive PaddleEngineKind where
  | kNative
  | kAnakin
  | kAutoMixedTensorRT
  | kAnalysis
deriving DecidableEq

/-- The underlying integer value of each `PaddleEngineKind` enumerator:
`kNative = 0` is explicit in the header and the rest follow consecutively. -/
def PaddleEngineKind.val : PaddleEngineKind → Nat
  | PaddleEngineKind.kNative => 0
  | PaddleEngineKind.kAnakin => 1
  | PaddleEngineKind.kAutoMixedTensorRT => 2
  | PaddleEngineKind.kAnalysis => 3

/-- The default value of the factory's engine template parameter, transcribed
from `template <typename ConfigT, PaddleEngineKind engine =
PaddleEngineKind::kNative> std::unique_ptr<PaddlePredictor>
CreatePaddlePredictor(const ConfigT& config);`
(paddle_inference_api.h:178-179). -/
def CreatePaddlePredictorDefaultEngine : PaddleEngineKind :=
  PaddleEngineKind.kNative

/-- The default value of the `batch_size` parameter of
`PaddlePredictor::Run`, transcribed from `int batch_size = -1`
(paddle_inference_api.h:104). -/
def runDefaultBatchSize : Int := -1

/-- Modelled from the spec: `PaddlePredictor::Run` is pure virtual
(paddle_inference_api.h:102-104) and no implementation is in the excerpt.
Per the spec, "Returns a success/failure indication; no exception is thrown
across this boundary", so every implementation is modelled as a total
function from the inputs and the batch size to a boolean success flag
together with the output tensors written through `output_data`. -/
structure PaddlePredictor where
  Run : List PaddleTensor → Int → Bool × List PaddleTensor

/-- A call of `Run` with the `batch_size` argument omitted: the declared
default `-1` is supplied (paddle_inference_api.h:104). -/
def PaddlePredictor.RunDefault (pr : PaddlePredictor)
    (inputs : List PaddleTensor) : Bool × List PaddleTensor :=
  pr.Run inputs runDefaultBatchSize

/-- The member functions declared by `class PaddlePredictor`
(paddle_inference_api.h:90-111): the defaulted default constructor, the
deleted copy constructor and copy assignment, `Run`, `Clone`, and the
virtual destructor. -/
inductive PredictorMember where
  | defaultCtor
  | copyCtor
  | copyAssign
  | run
  | clone
  | destructor
deriving DecidableEq

/-- All member functions declared by `class PaddlePredictor`, in declaration
order. -/
def predictorMembers : List PredictorMember :=
  [PredictorMember.defaultCtor, PredictorMember.copyCtor,
   PredictorMember.copyAssign, PredictorMember.run,
   PredictorMember.clone, PredictorMember.destructor]

/-- Which members are declared `= delete`: `PaddlePredictor(const
PaddlePredictor&) = delete;` and `PaddlePredictor& operator=(const
PaddlePredictor&) = delete;` (paddle_inference_api.h:94-95). -/
def PredictorMember.deleted : PredictorMember → Bool
  | PredictorMember.copyCtor => true
  | PredictorMember.copyAssign => true
  | _ => false

/-- Which members, as declared, would yield a second predictor over the same
loaded weights as an existing one: the copy constructor and copy assignment
would, and `Clone` does ("Clone a predictor that share the model weights",
paddle_inference_api.h:106-108).  The default constructor yields a fresh
predictor with no source, and `Run` and the destructor yield none. -/
def PredictorMember.yieldsSharedPredictor : PredictorMember → Bool
  | PredictorMember.copyCtor => true
  | PredictorMember.copyAssign => true
  | PredictorMember.clone => true
  | _ => false

/-- C1: destruction frees the underlying memory only when the buffer
exclusively owns it — a buffer constructed from external (ptr, length) is
marked non-owning and its destruction leaves the heap untouched, while a
buffer constructed as owning holds a live allocation whose address is no
longer allocated after its destruction. -/
theorem destruction_frees_only_when_owned (p : Option Nat) (len n : Nat)
    (h : Heap) (hw : h.wf) :
    (PaddleBuf.ofExternal p len).memory_owned_ = false
  ∧ PaddleBuf.destruct (PaddleBuf.ofExternal p len) h = h
  ∧ (PaddleBuf.ofLength h n).1.memory_owned_ = true
  ∧ ∃ a, (PaddleBuf.ofLength h n).1.data_ = some a
      ∧ a ∈ (PaddleBuf.ofLength h n).2.alloc
      ∧ a ∉ (PaddleBuf.destruct (PaddleBuf.ofLength h n).1
              (PaddleBuf.ofLength h n).2).alloc := by
  refine ⟨rfl, rfl, rfl, h.next, rfl, List.mem_cons_self _ _, ?_⟩
  intro hmem
  simp only [PaddleBuf.destruct, PaddleBuf.Free, PaddleBuf.ofLength,
    Heap.newArray, Heap.free] at hmem
  rw [List.erase_cons_head] at hmem
  exact absurd (hw.2 _ hmem) (lt_irrefl _)

/-- Witness for C1 at the concrete heap with one live allocation. -/
theorem destruction_frees_only_when_owned_witness :
    Heap.wf ⟨[4], 5⟩ ∧
    ((PaddleBuf.ofExternal (some 9) 7).memory_owned_ = false
    ∧ PaddleBuf.destruct (PaddleBuf.ofExternal (some 9) 7) ⟨[4], 5⟩ = ⟨[4], 5⟩
    ∧ (PaddleBuf.ofLength ⟨[4], 5⟩ 3).1.memory_owned_ = true
    ∧ ∃ a, (PaddleBuf.ofLength ⟨[4], 5⟩ 3).1.data_ = some a
        ∧ a ∈ (PaddleBuf.ofLength ⟨[4], 5⟩ 3).2.alloc
        ∧ a ∉ (PaddleBuf.destruct (PaddleBuf.ofLength ⟨[4], 5⟩ 3).1
                (PaddleBuf.ofLength ⟨[4], 5⟩ 3).2).alloc) :=
  ⟨by decide, destruction_frees_only_when_owned (some 9) 7 3 ⟨[4], 5⟩ (by decide)⟩

/-- C2: `PaddleDtypeSize` returns 4 on FLOAT32 and 8 on INT64, and FLOAT32
and INT64 are the only tags of the `PaddleDType` enumeration. -/
theorem dtype_sizes_and_only_two_tags :
    PaddleDtypeSize PaddleDType.FLOAT32 = 4
  ∧ PaddleDtypeSize PaddleDType.INT64 = 8
  ∧ ∀ d : PaddleDType, d = PaddleDType.FLOAT32 ∨ d = PaddleDType.INT64 := by
  refine ⟨rfl, rfl, ?_⟩
  intro d
  cases d
  · exact Or.inl rfl
  · exact Or.inr rfl

/-- C3: for a buffer constructed from an external pointer and a length,
`empty()` is true iff the length is 0; moreover `empty()` of any buffer
depends only on its length, never on its ownership flag. -/
theorem external_buffer_empty_iff_length_zero (p : Option Nat) (len : Nat) :
    ((PaddleBuf.ofExternal p len).empty = true ↔ len = 0)
  ∧ ∀ b : PaddleBuf, (b.empty = true ↔ b.length_ = 0) := by
  constructor
  · simp [PaddleBuf.empty, PaddleBuf.ofExternal]
  · intro b
    simp [PaddleBuf.empty]

/-- C4: a buffer constructed as owning with size N has `length() = N`, and
for N > 0 its `data()` pointer is non-null. -/
theorem owned_ctor_length_and_nonnull_data (h : Heap) (N : Nat) :
    (PaddleBuf.ofLength h N).1.length = N
  ∧ (0 < N → (PaddleBuf.ofLength h N).1.data ≠ none) := by
  constructor
  · rfl
  · intro _
    simp [PaddleBuf.ofLength, PaddleBuf.data, Heap.newArray]

/-- Witness for C4 at N = 3 on the empty heap. -/
theorem owned_ctor_length_and_nonnull_data_witness :
    (PaddleBuf.ofLength Heap.emptyHeap 3).1.length = 3
  ∧ (0 < 3 → (PaddleBuf.ofLength Heap.emptyHeap 3).1.data ≠ none) :=
  owned_ctor_length_and_nonnull_data Heap.emptyHeap 3

/-- C5: move construction and move assignment leave the source empty and
non-owning (null data, zero length) and leave the destination holding exactly
the source's original data pointer, length and ownership flag. -/
theorem move_transfers_ownership_and_empties_source (b dest : PaddleBuf) :
    (PaddleBuf.moveConstruct b).1 = ⟨b.data_, b.length_, b.memory_owned_⟩
  ∧ (PaddleBuf.moveConstruct b).2 = ⟨none, 0, false⟩
  ∧ (PaddleBuf.moveAssign dest b).1 = ⟨b.data_, b.length_, b.memory_owned_⟩
  ∧ (PaddleBuf.moveAssign dest b).2 = ⟨none, 0, false⟩ :=
  ⟨rfl, rfl, rfl, rfl⟩

/-- C6: `Reset(data, length)` leaves the buffer referencing the new memory as
non-owning with the given data pointer and length; it leaves the heap
untouched when the buffer owned nothing, and any address the buffer
previously owned is no longer allocated afterwards. -/
theorem reset_releases_owned_and_borrows_new (b : PaddleBuf) (h : Heap)
    (p : Option Nat) (len : Nat) (hnd : h.alloc.Nodup) :
    (b.Reset p len h).1.data = p
  ∧ (b.Reset p len h).1.length = len
  ∧ (b.Reset p len h).1.memory_owned_ = false
  ∧ (b.memory_owned_ = false → (b.Reset p len h).2 = h)
  ∧ ∀ a, b.memory_owned_ = true → b.data_ = some a →
      a ∉ (b.Reset p len h).2.alloc := by
  refine ⟨rfl, rfl, rfl, ?_, ?_⟩
  · intro hno
    simp [PaddleBuf.Reset, PaddleBuf.Free, hno]
  · intro a ho hd hmem
    simp only [PaddleBuf.Reset, PaddleBuf.Free, ho, hd, if_true, Heap.free] at hmem
    exact absurd ((hnd.mem_erase_iff).mp hmem).1 (fun hne => hne rfl)

/-- Witness for C6: a buffer owning address 0 in a two-block heap, reset to
external address 5. -/
theorem reset_releases_owned_and_borrows_new_witness :
    List.Nodup (Heap.alloc ⟨[0, 1], 2⟩) ∧
    ((PaddleBuf.Reset ⟨some 0, 4, true⟩ (some 5) 2 ⟨[0, 1], 2⟩).1.data = some 5
    ∧ (PaddleBuf.Reset ⟨some 0, 4, true⟩ (some 5) 2 ⟨[0, 1], 2⟩).1.length = 2
    ∧ (PaddleBuf.Reset ⟨some 0, 4, true⟩ (some 5) 2 ⟨[0, 1], 2⟩).1.memory_owned_ = false
    ∧ ((⟨some 0, 4, true⟩ : PaddleBuf).memory_owned_ = false →
        (PaddleBuf.Reset ⟨some 0, 4, true⟩ (some 5) 2 ⟨[0, 1], 2⟩).2 = ⟨[0, 1], 2⟩)
    ∧ ∀ a, (⟨some 0, 4, true⟩ : PaddleBuf).memory_owned_ = true →
        (⟨some 0, 4, true⟩ : PaddleBuf).data_ = some a →
        a ∉ (PaddleBuf.Reset ⟨some 0, 4, true⟩ (some 5) 2 ⟨[0, 1], 2⟩).2.alloc) :=
  ⟨by decide, reset_releases_owned_and_borrows_new ⟨some 0, 4, true⟩ ⟨[0, 1], 2⟩
    (some 5) 2 (by decide)⟩

/-- C7: `Run` signals success or failure through its boolean result — in the
model every call yields a (success flag, outputs) pair, with no exception
channel — and the declared `batch_size` default is the negative sentinel -1,
supplied whenever the argument is omitted. -/
theorem run_bool_result_and_default_batch_size (pr : PaddlePredictor)
    (inputs : List PaddleTensor) :
    runDefaultBatchSize = -1
  ∧ runDefaultBatchSize < 0
  ∧ pr.RunDefault inputs = pr.Run inputs (-1)
  ∧ ∃ ok : Bool, ∃ outs : List PaddleTensor, pr.RunDefault inputs = (ok, outs) :=
  ⟨rfl, by decide, rfl, (pr.RunDefault inputs).1, (pr.RunDefault inputs).2, rfl⟩

/-- C8: the engine kind enumeration is closed with exactly the four
enumerators kNative (value 0), kAnakin, kAutoMixedTensorRT and kAnalysis,
and the factory's engine parameter defaults to kNative. -/
theorem engine_kinds_closed_and_factory_default :
    (∀ k : PaddleEngineKind, k = PaddleEngineKind.kNative
      ∨ k = PaddleEngineKind.kAnakin
      ∨ k = PaddleEngineKind.kAutoMixedTensorRT
      ∨ k = PaddleEngineKind.kAnalysis)
  ∧ PaddleEngineKind.val PaddleEngineKind.kNative = 0
  ∧ CreatePaddlePredictorDefaultEngine = PaddleEngineKind.kNative := by
  refine ⟨?_, rfl, rfl⟩
  intro k
  cases k
  · exact Or.inl rfl
  · exact Or.inr (Or.inl rfl)
  · exact Or.inr (Or.inr (Or.inl rfl))
  · exact Or.inr (Or.inr (Or.inr rfl))

/-- C9: the copy constructor and copy assignment of `PaddlePredictor` are
deleted, so among the declared members the only non-deleted one yielding a
second predictor over the same loaded weights is `Clone`. -/
theorem predictor_noncopyable_clone_only :
    PredictorMember.deleted PredictorMember.copyCtor = true
  ∧ PredictorMember.deleted PredictorMember.copyAssign = true
  ∧ predictorMembers.filter
      (fun m => m.yieldsSharedPredictor && !m.deleted) = [PredictorMember.clone] :=
  ⟨rfl, rfl, rfl⟩

/-- C10: a default-constructed buffer has null data, zero length, is empty,
yet its ownership flag is initialized to true, and destroying it leaves the
heap unchanged. -/
theorem default_buffer_owning_but_harmless (h : Heap) :
    PaddleBuf.defaultCtor.data = none
  ∧ PaddleBuf.defaultCtor.length = 0
  ∧ PaddleBuf.defaultCtor.empty = true
  ∧ PaddleBuf.defaultCtor.memory_owned_ = true
  ∧ PaddleBuf.destruct PaddleBuf.defaultCtor h = h :=
  ⟨rfl, rfl, rfl, rfl, rfl⟩
